import Mathlib

/-!
Verification of the audio capture/mixing core of the record-and-transcribe
repository (src/audio_capture.py), shallowly embedded in Lean 4.

Blocks of signed 16-bit stereo samples are modelled as lists of integer
pairs.  The numpy float32 pipeline of the mixer is modelled over ℚ: all
intermediate values (sums of two int16 samples, their halves, and the clip
bounds) are exactly representable in float32, so the rational model is
exact.  `astype(np.int16)` on an in-range float is C-style truncation
toward zero, modelled by `truncQ`.
-/

namespace AudioCapture

/-- Truncation toward zero of a rational, as numpy's float→int16 cast
performs on in-range values (and as Python's `int()` does on floats). -/
def truncQ (x : ℚ) : ℤ := if 0 ≤ x then ⌊x⌋ else ⌈x⌉

/-- `np.clip(x, -32768, 32767)` on the float intermediate. -/
def clipQ (x : ℚ) : ℚ := max (-32768) (min 32767 x)

/-- One mixed sample: `(a + b) / 2` in float, clipped to the int16 range,
then cast back to int16 (truncation toward zero).  From
`_recording_loop` lines 151-152. -/
def mixSample (a b : ℤ) : ℤ := truncQ (clipQ ((a + b : ℚ) / 2))

/-- A stereo frame: left and right samples. -/
abbrev Frame := ℤ × ℤ

/-- Mix two stereo frames sample-wise. -/
def mixFrame (x y : Frame) : Frame := (mixSample x.1 y.1, mixSample x.2 y.2)

/-- `np.pad(block, ((0, n - len), (0, 0)))`: zero frames appended at the
end to reach `n` frames. -/
def padTo (n : ℕ) (xs : List Frame) : List Frame :=
  xs ++ List.replicate (n - xs.length) (0, 0)

/-- The mixer's both-sources case, from `_recording_loop` lines 142-152:
the shorter block is zero-padded at the end to the longer one's length,
then the blocks are averaged sample-wise, clipped, and cast to int16. -/
def mixBlocks (a b : List Frame) : List Frame :=
  let n := max a.length b.length
  List.zipWith mixFrame (padTo n a) (padTo n b)

/-- Truncation toward zero of `s / 2` stated purely over ℤ
(`/` on ℤ is floor division, so the negative case is negated). -/
def truncHalf (s : ℤ) : ℤ := if 0 ≤ s then s / 2 else -(-s / 2)

/-- Modelled from the claim wording of C1: `clip(round((a+b)/2))`, with
round-to-nearest and clip to the signed 16-bit range. -/
def specMixRound (a b : ℤ) : ℤ :=
  max (-32768) (min 32767 (round ((a + b : ℚ) / 2)))

/-- The amended per-sample formula: `clip(trunc((a+b)/2))`, where trunc
rounds toward zero (as numpy's int16 cast does). -/
def specMixTrunc (a b : ℤ) : ℤ :=
  max (-32768) (min 32767 (truncHalf (a + b)))

/-- Python's `int()` on a float: truncation toward zero. -/
noncomputable def pyInt (x : ℝ) : ℤ := if 0 ≤ x then ⌊x⌋ else ⌈x⌉

/-- `_peak_to_level` (audio_capture.py lines 83-92): 0 for `peak < 1`,
else `max(0, min(100, int((db + 60) / 60 * 100)))` with
`db = 20 * log10(peak / 32768)`. -/
noncomputable def peakToLevel (peak : ℕ) : ℤ :=
  if peak < 1 then 0
  else
    let db : ℝ := 20 * Real.logb 10 ((peak : ℝ) / 32768)
    max 0 (min 100 (pyInt ((db + 60) / 60 * 100)))

/-- Modelled from the claim wording of C7: the same dB pipeline but with
`level = clamp(round((db + 60) / 60 * 100), 0, 100)`, i.e. round-to-nearest
in place of Python's truncating `int()`. -/
noncomputable def specLevelRound (peak : ℕ) : ℤ :=
  if peak < 1 then 0
  else
    let db : ℝ := 20 * Real.logb 10 ((peak : ℝ) / 32768)
    min 100 (max 0 (round ((db + 60) / 60 * 100)))

/-- Errors raised by the Capture Session.  The Python code raises
`RuntimeError`; the spec names the two start-time failures SessionBusyError
("Already recording") and StreamOpenError ("Failed to start ... stream"). -/
inductive RTError where
  | sessionBusy : RTError
  | streamOpen : RTError
deriving DecidableEq

/-- The mutable fields of an `AudioCapture` object (its `__init__`,
lines 22-40).  A stream field is `true` while a stream object is held;
`wave_file` is `some true` while the sink is open, `some false` once the
held handle has been closed, `none` when the field is None.  Output paths
are opaque naturals. -/
structure CaptureState where
  is_recording : Bool
  mic_stream : Bool
  loopback_stream : Bool
  mic_active : Bool
  loopback_active : Bool
  mic_level : ℤ
  loopback_level : ℤ
  output_file : Option ℕ
  wave_file : Option Bool
  recording_thread : Bool
  mic_channels : ℕ
  loopback_channels : ℕ
  is_previewing : Bool
deriving DecidableEq

/-- The state `__init__` builds. -/
def initState : CaptureState :=
  { is_recording := false, mic_stream := false, loopback_stream := false,
    mic_active := false, loopback_active := false, mic_level := 0,
    loopback_level := 0, output_file := none, wave_file := none,
    recording_thread := false, mic_channels := 1, loopback_channels := 2,
    is_previewing := false }

/-- Host-audio-system behaviour for one `start_recording` call: whether
each requested device opens successfully, the device channel maxima, and
the timestamped path the call will use. -/
structure StartEnv where
  micOpens : Bool
  loopOpens : Bool
  micMaxCh : ℕ
  loopMaxCh : ℕ
  newPath : ℕ

/-- Tail of `start_recording` (lines 238-241): start the writer thread and
return the output path field. -/
def finishStart (fs : List ℕ) (s : CaptureState) :
    CaptureState × List ℕ × Except RTError (Option ℕ) :=
  ({ s with recording_thread := true }, fs, Except.ok s.output_file)

/-- Loopback half of `start_recording` (lines 216-236): on success record
the channel count, hold the started stream and mark the source active; on
failure stop and drop the mic stream if one is held, clear the recording
flag, close the sink and raise StreamOpenError.  A failure is modelled at
stream acquisition, after the device-channel query. -/
def startLoopback (env : StartEnv) (fs : List ℕ) (s : CaptureState)
    (loopDev : Bool) : CaptureState × List ℕ × Except RTError (Option ℕ) :=
  if loopDev then
    if env.loopOpens then
      finishStart fs
        { s with loopback_channels := min env.loopMaxCh 2,
                 loopback_stream := true, loopback_active := true }
    else
      let s1 := { s with loopback_channels := min env.loopMaxCh 2 }
      let s2 := if s1.mic_stream then { s1 with mic_stream := false } else s1
      ({ s2 with is_recording := false, wave_file := some false },
        fs, Except.error RTError.streamOpen)
  else
    finishStart fs s

/-- `start_recording` (lines 162-241).  Raises SessionBusyError when
already recording; otherwise records the fresh timestamped path, resets
the active flags and levels, creates the WAV file (`wave.open(..., 'wb')`
appends it to the filesystem `fs`), opens the sink, sets the recording
flag, then opens the microphone (failure clears the recording flag,
closes the sink and raises StreamOpenError) before handing over to
`startLoopback`. -/
def startRecording (env : StartEnv) (fs : List ℕ) (s : CaptureState)
    (micDev loopDev : Bool) : CaptureState × List ℕ × Except RTError (Option ℕ) :=
  if s.is_recording then (s, fs, Except.error RTError.sessionBusy)
  else
    let s1 := { s with output_file := some env.newPath,
                       mic_active := false, loopback_active := false,
                       mic_level := 0, loopback_level := 0,
                       wave_file := some true, is_recording := true }
    let fs1 := fs ++ [env.newPath]
    if micDev then
      if env.micOpens then
        startLoopback env fs1
          { s1 with mic_channels := min env.micMaxCh 2,
                    mic_stream := true, mic_active := true } loopDev
      else
        ({ s1 with mic_channels := min env.micMaxCh 2,
                   is_recording := false, wave_file := some false },
          fs1, Except.error RTError.streamOpen)
    else
      startLoopback env fs1 s1 loopDev

/-- `stop_recording` (lines 243-273).  The `jt` flag records whether the
2-second join on the writer thread expired; the method's state effects are
the same either way.  The `if` guards mirror the code; a guard's else
branch leaves the already-cleared field as it was. -/
def stopRecording (_jt : Bool) (s : CaptureState) : CaptureState × Option ℕ :=
  if s.is_recording then
    let s1 := { s with is_recording := false }
    let s2 := if s1.mic_stream then { s1 with mic_stream := false } else s1
    let s3 := if s2.loopback_stream then { s2 with loopback_stream := false }
      else s2
    let s4 := { s3 with recording_thread := false }
    let s5 := if s4.wave_file.isSome then { s4 with wave_file := none } else s4
    (s5, s5.output_file)
  else (s, none)

/-- `get_current_level` (lines 282-288). -/
def getCurrentLevel (s : CaptureState) : ℤ × ℤ :=
  (s.mic_level, s.loopback_level)

/-- `stop_preview` (lines 336-362): no-op unless previewing; otherwise
drops both streams and zeroes the active flags and both levels. -/
def stopPreview (s : CaptureState) : CaptureState :=
  if s.is_previewing then
    { s with is_previewing := false, mic_stream := false,
             loopback_stream := false, mic_active := false,
             loopback_active := false, mic_level := 0, loopback_level := 0 }
  else s

/-- A queued audio block. -/
abbrev Block := List Frame

/-- State of the Mixer/Writer Loop once hardware callbacks have stopped
feeding the queues: the recording flag, the two active flags, the two FIFO
queues, whether the sink is open, and the blocks written so far. -/
structure LoopState where
  recording : Bool
  micActive : Bool
  loopActive : Bool
  micQ : List Block
  loopQ : List Block
  sinkOpen : Bool
  out : List Block
deriving DecidableEq

/-- The `while` condition of `_recording_loop` (line 126). -/
def loopGuard (s : LoopState) : Bool :=
  s.recording || !s.micQ.isEmpty || !s.loopQ.isEmpty

/-- One iteration of `_recording_loop` (lines 127-160): each active source
yields its queue's head block if one is pending (the 100 ms `get` times
out to none on an empty queue); two blocks are mixed, a single block is
written through unmodified, and a write happens only while the sink is
open (`if self.wave_file`). -/
def loopIter (s : LoopState) : LoopState :=
  let micData := if s.micActive then s.micQ.head? else none
  let loopData := if s.loopActive then s.loopQ.head? else none
  match micData, loopData with
  | some m, some l =>
      { s with micQ := s.micQ.tail, loopQ := s.loopQ.tail,
               out := if s.sinkOpen then s.out ++ [mixBlocks m l] else s.out }
  | some m, none =>
      { s with micQ := s.micQ.tail,
               out := if s.sinkOpen then s.out ++ [m] else s.out }
  | none, some l =>
      { s with loopQ := s.loopQ.tail,
               out := if s.sinkOpen then s.out ++ [l] else s.out }
  | none, none => s

/-- Run the loop with `fuel` iterations available: `some` final state if
the `while` condition fails within the budget, `none` if it still holds. -/
def runLoop : ℕ → LoopState → Option LoopState
  | 0, _ => none
  | fuel + 1, s => if loopGuard s then runLoop fuel (loopIter s) else some s

/-- What a complete drain writes: overlapping prefixes of the two queues
are mixed pairwise, the longer queue's leftover blocks pass through. -/
def mergeQueues : List Block → List Block → List Block
  | [], bs => bs
  | as, [] => as
  | a :: as, b :: bs => mixBlocks a b :: mergeQueues as bs

/-- Host behaviour used by the concrete failure runs: the microphone opens,
the loopback open fails. -/
def envC3 : StartEnv :=
  { micOpens := true, loopOpens := false, micMaxCh := 2, loopMaxCh := 2,
    newPath := 0 }

/-- A concrete mid-recording state with nonzero meter levels. -/
def recState : CaptureState :=
  { is_recording := true, mic_stream := true, loopback_stream := true,
    mic_active := true, loopback_active := true, mic_level := 42,
    loopback_level := 7, output_file := some 0, wave_file := some true,
    recording_thread := true, mic_channels := 2, loopback_channels := 2,
    is_previewing := false }

/-- A concrete mid-preview state with a nonzero mic level. -/
def prevState : CaptureState :=
  { initState with is_previewing := true, mic_stream := true,
                   mic_active := true, mic_level := 9 }

/-- A concrete drained-loop start state: stop requested, one mic block and
two loopback blocks still queued. -/
def drainState : LoopState :=
  { recording := false, micActive := true, loopActive := true,
    micQ := [[(2, 2)]], loopQ := [[(4, 4)], [(6, 6)]], sinkOpen := true,
    out := [] }

theorem floor_int_div_two (s : ℤ) : ⌊(s : ℚ) / 2⌋ = s / 2 := by
  have h := Rat.floor_intCast_div_natCast s 2
  norm_num at h
  exact h

/-- The rational mixing pipeline computes exactly: clip to the int16 range
of the toward-zero truncation of `(a + b) / 2`. -/
theorem mixSample_eq (a b : ℤ) :
    mixSample a b = max (-32768) (min 32767 (truncHalf (a + b))) := by
  have hcast : ((a : ℚ) + b) = ((a + b : ℤ) : ℚ) := by push_cast; ring
  set s : ℤ := a + b with hsdef
  unfold mixSample truncQ clipQ truncHalf
  rw [hcast]
  by_cases hs : (0 : ℤ) ≤ s
  · have hv0 : (0 : ℚ) ≤ (s : ℚ) / 2 :=
      div_nonneg (by exact_mod_cast hs) (by norm_num)
    by_cases hle : (s : ℚ) / 2 ≤ 32767
    · have hs2 : s ≤ 65534 := by
        have : (s : ℚ) ≤ 65534 := by linarith
        exact_mod_cast this
      rw [min_eq_right hle, max_eq_right (le_trans (by norm_num) hv0),
        if_pos hv0, floor_int_div_two, if_pos hs,
        min_eq_right (by omega : s / 2 ≤ 32767),
        max_eq_right (by omega : (-32768 : ℤ) ≤ s / 2)]
    · have hs2 : 65534 < s := by
        have : (65534 : ℚ) < s := by
          have := lt_of_not_le hle
          linarith
        exact_mod_cast this
      rw [min_eq_left (le_of_lt (lt_of_not_le hle)),
        max_eq_right (by norm_num : (-32768 : ℚ) ≤ 32767),
        if_pos (by norm_num : (0 : ℚ) ≤ 32767),
        show ((32767 : ℚ)) = ((32767 : ℤ) : ℚ) by norm_num,
        Int.floor_intCast, if_pos hs,
        min_eq_left (by omega : (32767 : ℤ) ≤ s / 2),
        max_eq_right (by norm_num : (-32768 : ℤ) ≤ 32767)]
  · have hsneg : s < 0 := lt_of_not_le hs
    have hv : (s : ℚ) / 2 < 0 :=
      div_neg_of_neg_of_pos (by exact_mod_cast hsneg) (by norm_num)
    have hmin : min (32767 : ℚ) ((s : ℚ) / 2) = (s : ℚ) / 2 :=
      min_eq_right (le_of_lt (lt_trans hv (by norm_num)))
    have hceil : ⌈(s : ℚ) / 2⌉ = -(-s / 2) := by
      rw [show (s : ℚ) / 2 = -(((-s : ℤ) : ℚ) / 2) by push_cast; ring,
        Int.ceil_neg, floor_int_div_two]
    by_cases hge : (-32768 : ℚ) ≤ (s : ℚ) / 2
    · have hs2 : -65536 ≤ s := by
        have : (-65536 : ℚ) ≤ s := by linarith
        exact_mod_cast this
      rw [hmin, max_eq_right hge, if_neg (not_le.mpr hv), hceil, if_neg hs,
        min_eq_right (by omega : -(-s / 2) ≤ 32767),
        max_eq_right (by omega : (-32768 : ℤ) ≤ -(-s / 2))]
    · have hs2 : s < -65536 := by
        have : (s : ℚ) < -65536 := by
          have := lt_of_not_le hge
          linarith
        exact_mod_cast this
      rw [hmin, max_eq_left (le_of_lt (lt_of_not_le hge)),
        if_neg (by norm_num : ¬(0 : ℚ) ≤ -32768),
        show ((-32768 : ℚ)) = ((-32768 : ℤ) : ℚ) by norm_num,
        Int.ceil_intCast, if_neg hs,
        min_eq_right (by omega : -(-s / 2) ≤ 32767),
        max_eq_left (by omega : -(-s / 2) ≤ -32768)]

theorem length_padTo (n : ℕ) (xs : List Frame) (h : xs.length ≤ n) :
    (padTo n xs).length = n := by
  simp [padTo]
  omega

theorem padTo_getD (n : ℕ) (xs : List Frame) (i : ℕ) (h : i < n) :
    (padTo n xs).getD i (0, 0) = xs.getD i (0, 0) := by
  unfold padTo
  by_cases hi : i < xs.length
  · rw [List.getD_eq_getElem _ _ (by simp; omega), List.getD_eq_getElem _ _ hi,
      List.getElem_append_left hi]
  · push_neg at hi
    by_cases hn : xs.length ≤ n
    · rw [List.getD_eq_getElem _ _ (by simp; omega), List.getD_eq_default _ _ hi,
        List.getElem_append_right hi, List.getElem_replicate]
    · push_neg at hn
      rw [show n - xs.length = 0 by omega]
      simp only [List.replicate_zero, List.append_nil]

theorem length_mixBlocks (a b : List Frame) :
    (mixBlocks a b).length = max a.length b.length := by
  simp only [mixBlocks]
  rw [List.length_zipWith, length_padTo _ _ (le_max_left _ _),
    length_padTo _ _ (le_max_right _ _), min_self]

theorem mixBlocks_getD (a b : List Frame) (i : ℕ)
    (h : i < max a.length b.length) :
    (mixBlocks a b).getD i (0, 0) =
      mixFrame (a.getD i (0, 0)) (b.getD i (0, 0)) := by
  simp only [mixBlocks]
  have hlen : (List.zipWith mixFrame (padTo (max a.length b.length) a)
      (padTo (max a.length b.length) b)).length = max a.length b.length := by
    rw [List.length_zipWith, length_padTo _ _ (le_max_left _ _),
      length_padTo _ _ (le_max_right _ _), min_self]
  rw [List.getD_eq_getElem _ _ (by rw [hlen]; exact h), List.getElem_zipWith,
    ← List.getD_eq_getElem (padTo (max a.length b.length) a) (0, 0)
      (by rw [length_padTo _ _ (le_max_left _ _)]; exact h),
    ← List.getD_eq_getElem (padTo (max a.length b.length) b) (0, 0)
      (by rw [length_padTo _ _ (le_max_right _ _)]; exact h),
    padTo_getD _ _ _ h, padTo_getD _ _ _ h]

/-- Monotonicity of toward-zero truncation. -/
theorem pyInt_mono {x y : ℝ} (h : x ≤ y) : pyInt x ≤ pyInt y := by
  unfold pyInt
  by_cases hx : 0 ≤ x
  · rw [if_pos hx, if_pos (le_trans hx h)]
    exact Int.floor_le_floor h
  · rw [if_neg hx]
    by_cases hy : 0 ≤ y
    · rw [if_pos hy]
      have h1 : ⌈x⌉ ≤ 0 := Int.ceil_le.mpr (by push_cast; linarith)
      have h2 : (0 : ℤ) ≤ ⌊y⌋ := Int.le_floor.mpr (by push_cast; exact hy)
      omega
    · rw [if_neg hy]
      exact Int.ceil_le_ceil h

/-- Lower bound on log₁₀ 2, from 10³ < 2¹⁰. -/
theorem logb_ten_two_gt : (3 : ℝ) / 10 < Real.logb 10 2 := by
  have h10 : (0 : ℝ) < Real.log 10 := Real.log_pos (by norm_num)
  have h : Real.log 1000 < Real.log 1024 :=
    Real.log_lt_log (by norm_num) (by norm_num)
  have h1000 : Real.log 1000 = 3 * Real.log 10 := by
    rw [show (1000 : ℝ) = 10 ^ (3 : ℕ) by norm_num, Real.log_pow]
    norm_num
  have h1024 : Real.log 1024 = 10 * Real.log 2 := by
    rw [show (1024 : ℝ) = 2 ^ (10 : ℕ) by norm_num, Real.log_pow]
    norm_num
  unfold Real.logb
  rw [lt_div_iff₀ h10]
  nlinarith [h, h1000, h1024]

/-- Upper bound on log₁₀ 2, from 2²⁰⁰ < 10⁶³. -/
theorem logb_ten_two_lt : Real.logb 10 2 < (63 : ℝ) / 200 := by
  have h10 : (0 : ℝ) < Real.log 10 := Real.log_pos (by norm_num)
  have h : Real.log (2 ^ (200 : ℕ)) < Real.log (10 ^ (63 : ℕ)) :=
    Real.log_lt_log (by positivity) (by norm_num)
  rw [Real.log_pow, Real.log_pow] at h
  unfold Real.logb
  rw [div_lt_iff₀ h10]
  push_cast at h
  nlinarith [h]

theorem mergeQueues_nil (as : List Block) : mergeQueues as [] = as := by
  cases as <;> simp [mergeQueues]

theorem loopIter_recording (s : LoopState) :
    (loopIter s).recording = s.recording := by
  simp only [loopIter]
  rcases hm : (if s.micActive then s.micQ.head? else none) with _ | m <;>
    rcases hl : (if s.loopActive then s.loopQ.head? else none) with _ | l <;>
    simp [hm, hl]

theorem runLoop_recording_none (n : ℕ) (s : LoopState)
    (h : s.recording = true) : runLoop n s = none := by
  induction n generalizing s with
  | zero => rfl
  | succ n ih =>
    rw [runLoop, if_pos (show loopGuard s = true by simp [loopGuard, h])]
    exact ih (loopIter s) (by rw [loopIter_recording]; exact h)

theorem runLoop_mono (n k : ℕ) (s t : LoopState) (h : runLoop n s = some t) :
    runLoop (n + k) s = some t := by
  induction n generalizing s with
  | zero => simp [runLoop] at h
  | succ n ih =>
    rw [runLoop] at h
    rw [show n + 1 + k = n + k + 1 by omega, runLoop]
    by_cases hg : loopGuard s = true
    · rw [if_pos hg] at h ⊢
      exact ih (loopIter s) h
    · rw [if_neg hg] at h ⊢
      exact h

/-- Full drain: with stop requested, both sources active and the sink
open, `|micQ| + |loopQ| + 1` iterations exhaust both queues and append
exactly the pairwise merge of the queues to the sink. -/
theorem runLoop_drain (as bs out : List Block) :
    runLoop (as.length + bs.length + 1)
      ⟨false, true, true, as, bs, true, out⟩ =
      some ⟨false, true, true, [], [], true, out ++ mergeQueues as bs⟩ := by
  induction as generalizing bs out with
  | nil =>
    induction bs generalizing out with
    | nil =>
      simp [runLoop, loopGuard, mergeQueues]
    | cons b bs ihb =>
      have hg : loopGuard ⟨false, true, true, [], b :: bs, true, out⟩
          = true := by
        simp [loopGuard]
      have hiter : loopIter ⟨false, true, true, [], b :: bs, true, out⟩ =
          ⟨false, true, true, [], bs, true, out ++ [b]⟩ := by
        simp [loopIter]
      rw [show ([] : List Block).length + (b :: bs).length + 1
          = (([] : List Block).length + bs.length + 1) + 1 by
          simp only [List.length_cons, List.length_nil]; omega]
      rw [runLoop, if_pos hg, hiter, ihb (out ++ [b])]
      simp [mergeQueues]
  | cons a as iha =>
    cases bs with
    | nil =>
      have hg : loopGuard ⟨false, true, true, a :: as, [], true, out⟩
          = true := by
        simp [loopGuard]
      have hiter : loopIter ⟨false, true, true, a :: as, [], true, out⟩ =
          ⟨false, true, true, as, [], true, out ++ [a]⟩ := by
        simp [loopIter]
      rw [show (a :: as).length + ([] : List Block).length + 1
          = (as.length + ([] : List Block).length + 1) + 1 by
          simp only [List.length_cons, List.length_nil]]
      rw [runLoop, if_pos hg, hiter, iha [] (out ++ [a])]
      simp [mergeQueues, mergeQueues_nil]
    | cons b bs =>
      have hg : loopGuard ⟨false, true, true, a :: as, b :: bs, true, out⟩
          = true := by
        simp [loopGuard]
      have hiter : loopIter ⟨false, true, true, a :: as, b :: bs, true, out⟩ =
          ⟨false, true, true, as, bs, true, out ++ [mixBlocks a b]⟩ := by
        simp [loopIter]
      have hrun2 := runLoop_mono (as.length + bs.length + 1) 1 _ _
        (iha bs (out ++ [mixBlocks a b]))
      rw [show (a :: as).length + (b :: bs).length + 1
          = ((as.length + bs.length + 1) + 1) + 1 by
          simp only [List.length_cons]; omega]
      rw [runLoop, if_pos hg, hiter, hrun2]
      simp [mergeQueues]

end AudioCapture

open AudioCapture

/-- C1 (counterexample): at mic block `[(1,1)]` and loopback block `[(2,2)]`
the mixer writes sample 1 (numpy's int16 cast truncates 1.5 toward zero),
while the claim's `clip(round((a+b)/2))` formula gives `round(1.5) = 2`. -/
theorem c1_round_formula_counterexample :
    (mixBlocks [(1, 1)] [(2, 2)]).getD 0 (0, 0) = (1, 1) ∧
    specMixRound 1 2 = 2 ∧
    (mixBlocks [(1, 1)] [(2, 2)]).getD 0 (0, 0) ≠
      (specMixRound 1 2, specMixRound 1 2) := by
  have h1 : (mixBlocks [((1 : ℤ), (1 : ℤ))] [(2, 2)]).getD 0 (0, 0) = (1, 1) := by
    simp [mixBlocks, padTo, mixFrame, mixSample_eq, List.zipWith]
    norm_num [truncHalf]
  have h2 : specMixRound 1 2 = 2 := by
    unfold specMixRound
    rw [show ((1 : ℤ) + (2 : ℤ) : ℚ) / 2 = 3 / 2 by norm_num, round_eq,
      show (3 : ℚ) / 2 + 1 / 2 = ((2 : ℤ) : ℚ) by norm_num, Int.floor_intCast]
    norm_num
  refine ⟨h1, h2, ?_⟩
  rw [h1, h2]
  intro hcontra
  exact absurd (congrArg Prod.fst hcontra) (by norm_num)

/-- C1 (amended): for every pair of blocks dequeued in the same iteration,
the written block has `max(m,n)` frames, the shorter block zero-padded at
the end; each output sample equals `clip(trunc((a+b)/2))` where trunc
rounds toward zero (not round-to-nearest) — uniformly expressed via
out-of-range reads defaulting to the zero frame. -/
theorem c1_mix_written_block (a b : List Frame) (i : ℕ)
    (h : i < max a.length b.length) :
    (mixBlocks a b).length = max a.length b.length ∧
    (mixBlocks a b).getD i (0, 0) =
      (specMixTrunc (a.getD i (0, 0)).1 (b.getD i (0, 0)).1,
       specMixTrunc (a.getD i (0, 0)).2 (b.getD i (0, 0)).2) := by
  refine ⟨length_mixBlocks a b, ?_⟩
  rw [mixBlocks_getD a b i h]
  simp [mixFrame, mixSample_eq, specMixTrunc]

/-- C1 witness: the amended theorem applied at concrete blocks, at an index
beyond the shorter block's length (checking end-padding). -/
theorem c1_mix_written_block_witness :
    (mixBlocks [(1, 1), (5, 5)] [(3, 3)]).length = max 2 1 ∧
    (mixBlocks [(1, 1), (5, 5)] [(3, 3)]).getD 1 (0, 0) =
      (specMixTrunc (([((1 : ℤ), (1 : ℤ)), (5, 5)].getD 1 (0, 0)).1)
        (([((3 : ℤ), (3 : ℤ))].getD 1 (0, 0)).1),
       specMixTrunc (([((1 : ℤ), (1 : ℤ)), (5, 5)].getD 1 (0, 0)).2)
        (([((3 : ℤ), (3 : ℤ))].getD 1 (0, 0)).2)) :=
  c1_mix_written_block [(1, 1), (5, 5)] [(3, 3)] 1 (by norm_num)

/-- C2: the spec's concrete scenario — a mic block of 4 stereo frames mixed
with a loopback block of 2 stereo frames yields exactly the 4 expected
frames, the last two being the mic frames halved (loopback zero-padded). -/
theorem c2_concrete_mix_scenario :
    mixBlocks [(100, 100), (200, 200), (300, 300), (400, 400)]
      [(50, 50), (150, 150)] =
      [(75, 75), (175, 175), (150, 150), (200, 200)] := by
  simp [mixBlocks, padTo, mixFrame, mixSample_eq, List.zipWith]
  norm_num [truncHalf]

/-- C7 (counterexample): at peak 16384 (−6.02 dBFS) the code's Python
`int()` truncates 89.97 to 89, while the claim's `round` yields 90. -/
theorem c7_round_formula_counterexample :
    peakToLevel 16384 = 89 ∧ specLevelRound 16384 = 90 ∧
    peakToLevel 16384 ≠ specLevelRound 16384 := by
  have hL1 := logb_ten_two_gt
  have hL2 := logb_ten_two_lt
  have hlog : Real.logb 10 ((16384 : ℕ) / 32768 : ℝ) = -Real.logb 10 2 := by
    rw [show (((16384 : ℕ) : ℝ) / 32768 : ℝ) = (2 : ℝ)⁻¹ by norm_num,
      Real.logb_inv]
  have hlow : (89.5 : ℝ) <
      (20 * Real.logb 10 (((16384 : ℕ) : ℝ) / 32768) + 60) / 60 * 100 := by
    rw [hlog]; nlinarith [hL2]
  have hhigh :
      (20 * Real.logb 10 (((16384 : ℕ) : ℝ) / 32768) + 60) / 60 * 100
        < 90 := by
    rw [hlog]; nlinarith [hL1]
  have hfloor :
      ⌊(20 * Real.logb 10 (((16384 : ℕ) : ℝ) / 32768) + 60) / 60 * 100⌋
        = 89 := by
    rw [Int.floor_eq_iff]
    constructor
    · push_cast; linarith
    · push_cast; linarith
  have hround :
      round ((20 * Real.logb 10 (((16384 : ℕ) : ℝ) / 32768) + 60) / 60 * 100)
        = 90 := by
    rw [round_eq, Int.floor_eq_iff]
    constructor
    · push_cast; linarith
    · push_cast; linarith
  have h1 : peakToLevel 16384 = 89 := by
    unfold peakToLevel
    rw [if_neg (by norm_num)]
    simp only [pyInt]
    rw [if_pos (by linarith), hfloor]
    norm_num
  have h2 : specLevelRound 16384 = 90 := by
    unfold specLevelRound
    rw [if_neg (by norm_num)]
    simp only
    rw [hround]
    norm_num
  exact ⟨h1, h2, by rw [h1, h2]; norm_num⟩

/-- C7 (amended): the Level Meter returns 0 for `peak < 1` (in particular
no domain error at silence), and otherwise
`clamp(int((db + 60) / 60 * 100), 0, 100)` where `int` is Python's
truncation toward zero (not round-to-nearest) and
`db = 20·log10(peak/32768)`. -/
theorem c7_level_formula (p : ℕ) :
    (p < 1 → peakToLevel p = 0) ∧
    (1 ≤ p → peakToLevel p =
      min 100 (max 0
        (pyInt ((20 * Real.logb 10 ((p : ℝ) / 32768) + 60) / 60 * 100)))) := by
  constructor
  · intro hp
    unfold peakToLevel
    rw [if_pos hp]
  · intro hp
    unfold peakToLevel
    rw [if_neg (by omega)]
    simp only
    rw [max_min_distrib_left]
    norm_num

/-- C7 witness: the amended formula at silence and at peak 1. -/
theorem c7_level_formula_witness :
    peakToLevel 0 = 0 ∧
    peakToLevel 1 =
      min 100 (max 0
        (pyInt ((20 * Real.logb 10 ((1 : ℝ) / 32768) + 60) / 60 * 100))) := by
  refine ⟨(c7_level_formula 0).1 (by norm_num), ?_⟩
  have h := (c7_level_formula 1).2 (le_refl 1)
  simpa using h

/-- C8: the level is monotone non-decreasing in the peak, maps 0 to 0,
and maps full scale 32768 to 100. -/
theorem c8_level_monotone_and_endpoints :
    (∀ p q : ℕ, p ≤ q → peakToLevel p ≤ peakToLevel q) ∧
    peakToLevel 0 = 0 ∧ peakToLevel 32768 = 100 := by
  refine ⟨?_, ?_, ?_⟩
  · intro p q hpq
    by_cases hp : p < 1
    · unfold peakToLevel
      rw [if_pos hp]
      by_cases hq : q < 1
      · rw [if_pos hq]
      · rw [if_neg hq]
        simp only
        exact le_max_left 0 _
    · have hq : ¬q < 1 := by omega
      unfold peakToLevel
      rw [if_neg hp, if_neg hq]
      simp only
      have hp1 : (1 : ℝ) ≤ (p : ℝ) := by exact_mod_cast Nat.one_le_iff_ne_zero.mpr (by omega)
      have hlogle : Real.logb 10 ((p : ℝ) / 32768) ≤
          Real.logb 10 ((q : ℝ) / 32768) := by
        apply Real.logb_le_logb_of_le (by norm_num)
        · positivity
        · have : (p : ℝ) ≤ (q : ℝ) := by exact_mod_cast hpq
          linarith
      have hmono : pyInt ((20 * Real.logb 10 ((p : ℝ) / 32768) + 60) / 60 * 100) ≤
          pyInt ((20 * Real.logb 10 ((q : ℝ) / 32768) + 60) / 60 * 100) :=
        pyInt_mono (by linarith)
      exact max_le_max (le_refl 0) (min_le_min (le_refl 100) hmono)
  · unfold peakToLevel
    rw [if_pos (by norm_num)]
  · unfold peakToLevel
    rw [if_neg (by norm_num)]
    simp only
    rw [show ((32768 : ℕ) : ℝ) / 32768 = 1 by norm_num, Real.logb_one]
    norm_num
    unfold pyInt
    rw [if_pos (by norm_num : (0 : ℝ) ≤ 100),
      show ((100 : ℝ)) = ((100 : ℤ) : ℝ) by norm_num, Int.floor_intCast]
    simp

/-- C8 witness: monotonicity applied at the concrete pair 2 ≤ 3. -/
theorem c8_level_monotone_witness : peakToLevel 2 ≤ peakToLevel 3 :=
  c8_level_monotone_and_endpoints.1 2 3 (by norm_num)

/-- C3 (counterexample): from the idle initial state, a successful mic open
followed by a failing loopback open raises StreamOpenError and drops the
mic stream, yet leaves `mic_active = true` (it was false before the call):
partial session state does persist, contradicting the claim. -/
theorem c3_residual_state_counterexample :
    initState.mic_active = false ∧
    (startRecording envC3 [] initState true true).2.2 =
      Except.error RTError.streamOpen ∧
    (startRecording envC3 [] initState true true).1.mic_stream = false ∧
    (startRecording envC3 [] initState true true).1.mic_active = true :=
  ⟨rfl, rfl, rfl, rfl⟩

/-- C3 (amended): with a valid microphone and a failing loopback open,
`start_recording` raises StreamOpenError, stops and drops the already
opened microphone stream, clears the recording flag, closes (but keeps
referencing) the sink and never starts the writer thread; the rollback is
incomplete, though: the mic-active flag is left set. -/
theorem c3_loopback_failure_rollback (env : StartEnv) (fs : List ℕ)
    (s : CaptureState) (h : s.is_recording = false)
    (hm : env.micOpens = true) (hl : env.loopOpens = false) :
    (startRecording env fs s true true).2.2 =
      Except.error RTError.streamOpen ∧
    (startRecording env fs s true true).1.mic_stream = false ∧
    (startRecording env fs s true true).1.is_recording = false ∧
    (startRecording env fs s true true).1.wave_file = some false ∧
    (startRecording env fs s true true).1.recording_thread =
      s.recording_thread ∧
    (startRecording env fs s true true).1.mic_active = true := by
  simp [startRecording, startLoopback, h, hm, hl]

/-- C3 witness: the rollback properties at the concrete failing run. -/
theorem c3_loopback_failure_rollback_witness :
    (startRecording envC3 [] initState true true).2.2 =
      Except.error RTError.streamOpen ∧
    (startRecording envC3 [] initState true true).1.mic_stream = false ∧
    (startRecording envC3 [] initState true true).1.is_recording = false ∧
    (startRecording envC3 [] initState true true).1.wave_file = some false ∧
    (startRecording envC3 [] initState true true).1.recording_thread =
      initState.recording_thread ∧
    (startRecording envC3 [] initState true true).1.mic_active = true :=
  c3_loopback_failure_rollback envC3 [] initState rfl rfl rfl

/-- C4: the loop guard fails exactly when stop has been requested and both
queues are empty; while the recording flag is set the loop never exits;
and once stop is requested (both sources active, sink open) the loop
drains within |micQ| + |loopQ| + 1 iterations, emptying both queues and
flushing every queued block to the sink — overlapping prefixes mixed
pairwise, leftover blocks written through, none dropped. -/
theorem c4_loop_drain_termination (s : LoopState) :
    (loopGuard s = false ↔
      s.recording = false ∧ s.micQ = [] ∧ s.loopQ = []) ∧
    (s.recording = true → ∀ n, runLoop n s = none) ∧
    (s.recording = false → s.micActive = true → s.loopActive = true →
      s.sinkOpen = true →
      runLoop (s.micQ.length + s.loopQ.length + 1) s =
        some { s with micQ := [], loopQ := [],
                      out := s.out ++ mergeQueues s.micQ s.loopQ }) := by
  refine ⟨?_, ?_, ?_⟩
  · simp [loopGuard, List.isEmpty_iff]
    exact and_assoc
  · intro h n
    exact runLoop_recording_none n s h
  · intro h1 h2 h3 h4
    obtain ⟨rec, ma, la, mq, lq, so, out⟩ := s
    simp only at h1 h2 h3 h4
    subst h1
    subst h2
    subst h3
    subst h4
    exact runLoop_drain mq lq out

/-- C4 witness: the drain applied at a concrete stop-requested state with
one mic block and two loopback blocks still queued. -/
theorem c4_loop_drain_witness :
    runLoop (drainState.micQ.length + drainState.loopQ.length + 1)
        drainState =
      some { drainState with
             micQ := ([] : List Block), loopQ := ([] : List Block),
             out := drainState.out ++
                      mergeQueues drainState.micQ drainState.loopQ } :=
  (c4_loop_drain_termination drainState).2.2 rfl rfl rfl rfl

/-- C5: `start_recording` while already recording raises SessionBusyError
before mutating anything: state and filesystem are returned untouched, so
the mode is still Recording and no field changed. -/
theorem c5_session_busy (env : StartEnv) (fs : List ℕ) (s : CaptureState)
    (micDev loopDev : Bool) (h : s.is_recording = true) :
    startRecording env fs s micDev loopDev =
      (s, fs, Except.error RTError.sessionBusy) ∧
    (startRecording env fs s micDev loopDev).1.is_recording = true := by
  have he : startRecording env fs s micDev loopDev =
      (s, fs, Except.error RTError.sessionBusy) := by
    unfold startRecording
    rw [if_pos h]
  exact ⟨he, by rw [he]; exact h⟩

/-- C5 witness: the busy failure at a concrete mid-recording state. -/
theorem c5_session_busy_witness :
    startRecording envC3 [] recState true true =
      (recState, [], Except.error RTError.sessionBusy) ∧
    (startRecording envC3 [] recState true true).1.is_recording = true :=
  c5_session_busy envC3 [] recState true true rfl

/-- C6: `stop_recording` when not recording is a no-op returning none;
otherwise — whether or not the bounded 2-second join on the writer thread
timed out — it clears the recording flag, drops both stream objects and
the thread, closes the sink, and returns the output file path. -/
theorem c6_stop_recording (jt : Bool) (s : CaptureState) :
    stopRecording jt s =
      if s.is_recording then
        ({ s with is_recording := false, mic_stream := false,
                  loopback_stream := false, recording_thread := false,
                  wave_file := none }, s.output_file)
      else (s, none) := by
  obtain ⟨rec, ms, ls, ma, la, ml, ll, opath, wf, rt, mc, lc, ip⟩ := s
  cases rec
  · simp [stopRecording]
  · cases ms <;> cases ls <;> rcases wf with _ | b <;> simp [stopRecording]

/-- C9 (counterexample): stopping the concrete recording session closes
both streams, yet `get_current_level` still reports the stale pre-stop
levels (42, 7) instead of (0, 0) for the now-inactive sources. -/
theorem c9_stale_levels_counterexample :
    recState.is_recording = true ∧
    (stopRecording false recState).1.mic_stream = false ∧
    (stopRecording false recState).1.loopback_stream = false ∧
    getCurrentLevel (stopRecording false recState).1 = (42, 7) ∧
    getCurrentLevel (stopRecording false recState).1 ≠ (0, 0) := by
  refine ⟨rfl, rfl, rfl, rfl, ?_⟩
  decide

/-- C9 (amended): `get_levels` returns the stored level fields as they
are.  Ending a preview (`stop_preview` while previewing) resets both
levels to 0, but ending a recording (`stop_recording` while recording)
leaves the last levels in place — it does not reset them. -/
theorem c9_levels_after_stop (sp sr : CaptureState) (jt : Bool)
    (hp : sp.is_previewing = true) (hr : sr.is_recording = true) :
    getCurrentLevel sr = (sr.mic_level, sr.loopback_level) ∧
    getCurrentLevel (stopPreview sp) = (0, 0) ∧
    getCurrentLevel (stopRecording jt sr).1 =
      (sr.mic_level, sr.loopback_level) := by
  refine ⟨rfl, ?_, ?_⟩
  · simp [stopPreview, hp, getCurrentLevel]
  · obtain ⟨rec, ms, ls, ma, la, ml, ll, opath, wf, rt, mc, lc, ip⟩ := sr
    cases ms <;> cases ls <;> rcases wf with _ | b <;>
      simp_all [stopRecording, getCurrentLevel]

/-- C9 witness: the level behaviour at concrete preview and recording
states. -/
theorem c9_levels_after_stop_witness :
    getCurrentLevel recState = (recState.mic_level, recState.loopback_level) ∧
    getCurrentLevel (stopPreview prevState) = (0, 0) ∧
    getCurrentLevel (stopRecording false recState).1 =
      (recState.mic_level, recState.loopback_level) :=
  c9_levels_after_stop prevState recState false rfl rfl

/-- C10: whenever `start_recording` fails with a stream-open error, the
timestamped WAV file was already created (the sink is opened before either
stream), its handle is closed but the file is not deleted, and the
session's output-file field still points to it. -/
theorem c10_wav_persists_on_failure (env : StartEnv) (fs : List ℕ)
    (s : CaptureState) (micDev loopDev : Bool)
    (h : (startRecording env fs s micDev loopDev).2.2 =
      Except.error RTError.streamOpen) :
    env.newPath ∈ (startRecording env fs s micDev loopDev).2.1 ∧
    (startRecording env fs s micDev loopDev).1.wave_file = some false ∧
    (startRecording env fs s micDev loopDev).1.output_file =
      some env.newPath := by
  obtain ⟨rec, ms, ls, ma, la, ml, ll, opath, wf, rt, mc, lc, ip⟩ := s
  cases rec <;> cases micDev <;> cases loopDev <;>
    cases hmo : env.micOpens <;> cases hlo : env.loopOpens <;> cases ms <;>
    simp_all [startRecording, startLoopback, finishStart]

/-- C10 witness: the created file persists across the concrete failing
run. -/
theorem c10_wav_persists_on_failure_witness :
    envC3.newPath ∈ (startRecording envC3 [] initState true true).2.1 ∧
    (startRecording envC3 [] initState true true).1.wave_file = some false ∧
    (startRecording envC3 [] initState true true).1.output_file =
      some envC3.newPath :=
  c10_wav_persists_on_failure envC3 [] initState true true rfl
